import Mathlib

/-!
# Verification of the MedGemma-Nutrition retrieval-augmented context engine

A shallow embedding of the repository's core modules
(`src/modules/rag_engine.py`, `src/modules/database.py`,
`src/modules/medgemma_model.py`) together with proofs and refutations of
the specification's claims about them.

Modelling conventions:
* Python exceptions are `Except String` values; a caught exception is a
  branch on the `Except` value.
* External collaborators (the Ollama embedding backend, the Chroma vector
  store, the langchain text splitter, the language model's token stream)
  are modelled by explicit parameters describing their observable
  behaviour, following the interface contracts the spec assigns to them.
* A few call sites of `rag_engine.py` are truncated in the source file;
  each definition that fills such a gap carries a doc comment starting
  `Modelled from the spec:` naming exactly what is missing.
-/

/-- `leadMatch pat hay` is true when `pat` occurs at the head of `hay`
(character-wise equality).  Helper for Python's `in` on strings. -/
def leadMatch : List Char → List Char → Bool
  | [], _ => true
  | _ :: _, [] => false
  | a :: pat, b :: hay => a == b && leadMatch pat hay

/-- `subSearch pat hay` is true when `pat` occurs contiguously anywhere in
`hay`.  Helper for Python's `in` on strings. -/
def subSearch (pat : List Char) : List Char → Bool
  | [] => pat.isEmpty
  | b :: hay => leadMatch pat (b :: hay) || subSearch pat hay

/-- Python's substring test `pat in hay`. -/
def strHas (hay pat : String) : Bool := subSearch pat.data hay.data

/-- Python's `str.lower()`, character-wise (the keywords involved are all
ASCII, where Python's and Lean's per-character lowercasing agree). -/
def pyLower (s : String) : String := ⟨s.data.map Char.toLower⟩

/-- `RAGEngine._get_category_from_filename` (src/modules/rag_engine.py
lines 102-112): assign a disease category from the lowercased filename by
a first-match cascade of keyword tests.  Note the source tests
`dietary_guidelines`/`icmr` BEFORE `pregnancy`. -/
def getCategoryFromFilename (filename : String) : String :=
  let fname := pyLower filename
  if strHas fname "diabetes" then "diabetes"
  else if strHas fname "hypertension" || strHas fname "blood_pressure" then "hypertension"
  else if strHas fname "anemia" || strHas fname "iron" then "anaemia"
  else if strHas fname "pcos" then "pcos"
  else if strHas fname "obesity" || strHas fname "esi" then "obesity"
  else if strHas fname "dietary_guidelines" || strHas fname "icmr" then "general"
  else if strHas fname "pregnancy" then "pregnancy"
  else "general"

/-- The categorizer exactly as the claim (and spec §4.2) orders its rules:
`pregnancy` is tested BEFORE `dietary_guidelines`/`icmr`.  Written from the
spec's words, only for comparison against `getCategoryFromFilename`. -/
def categorizeClaimOrder (filename : String) : String :=
  let fname := pyLower filename
  if strHas fname "diabetes" then "diabetes"
  else if strHas fname "hypertension" || strHas fname "blood_pressure" then "hypertension"
  else if strHas fname "anemia" || strHas fname "iron" then "anaemia"
  else if strHas fname "pcos" then "pcos"
  else if strHas fname "obesity" || strHas fname "esi" then "obesity"
  else if strHas fname "pregnancy" then "pregnancy"
  else if strHas fname "dietary_guidelines" || strHas fname "icmr" then "general"
  else "general"

/-- The source's keyword rules as an ordered table, in source order. -/
def keywordRules : List (List String × String) :=
  [(["diabetes"], "diabetes"),
   (["hypertension", "blood_pressure"], "hypertension"),
   (["anemia", "iron"], "anaemia"),
   (["pcos"], "pcos"),
   (["obesity", "esi"], "obesity"),
   (["dietary_guidelines", "icmr"], "general"),
   (["pregnancy"], "pregnancy")]

/-- First-matching-rule semantics over an ordered rule table, defaulting to
`"general"`. -/
def firstRuleMatch (fname : String) : List (List String × String) → String
  | [] => "general"
  | (kws, cat) :: rest =>
      if kws.any (fun kw => strHas fname kw) then cat else firstRuleMatch fname rest

/-- The seven category values of the data model. -/
def categoryValues : List String :=
  ["diabetes", "hypertension", "anaemia", "pcos", "obesity", "pregnancy", "general"]

/-- A langchain `Document`: extracted page text plus the metadata keys the
engine uses (`source`, `category`); `Option` because
`metadata.get(key, default)` tolerates absent keys. -/
structure Doc where
  page_content : String
  source : Option String
  category : Option String
deriving Repr, DecidableEq

/-- A file of the guideline source directory together with the observable
behaviour of `PyMuPDFLoader(str(pdf_file)).load()` on it: either the list
of extracted page texts, or the message of the exception the loader
raises. -/
structure PdfFile where
  name : String
  load : Except String (List String)

/-- `RAGEngine`'s handle fields reduced to availability: `embeddings`
models `self.embeddings is not None`, `storeAttached` models
`self.vector_store is not None`.  The entries behind an attached handle
are the `Option (List Doc)` persisted-store value passed alongside. -/
structure RAGEngine where
  embeddings : Bool
  storeAttached : Bool
deriving Repr, DecidableEq

/-- The per-file loop of `RAGEngine.load_pdf_guidelines`
(src/modules/rag_engine.py lines 129-143): load each PDF's pages, stamp
every page's metadata with the file's name and its category, and collect
in file order.  A loader exception on any file escapes the loop — the
source has no per-file handler, only the batch-level `except` — and is
returned here as the `Except.error`. -/
def collectDocs : List PdfFile → Except String (List Doc)
  | [] => .ok []
  | f :: rest =>
    match f.load with
    | .error e => .error e
    | .ok pages =>
      let category := getCategoryFromFilename f.name
      let tagged := pages.map (fun p => Doc.mk p (some f.name) (some category))
      (collectDocs rest).map (fun ds => tagged ++ ds)

/-- `RAGEngine._process_and_store_documents` (lines 159-188): split the
collected documents into chunks via the external langchain
`RecursiveCharacterTextSplitter` (passed as `splitter`) and store them.
Modelled from the spec: the `add_documents` upsert call is truncated out
of the source between lines 178 and 181 (its surrounding log lines
remain); per spec §4.2/§4.4 the chunks are upserted into the vector
index, a no-op when the store handle is `None` (source line 182-183 logs
"Documents not stored" and returns normally). -/
def process_and_store_documents (splitter : List Doc → List Doc)
    (eng : RAGEngine) (store : Option (List Doc)) (documents : List Doc) :
    Option (List Doc) :=
  let split_docs := splitter documents
  if eng.storeAttached then some (store.getD [] ++ split_docs) else store

/-- `RAGEngine.load_pdf_guidelines` (lines 114-157), returning the updated
persisted store and the boolean result.  Source control flow: empty file
list → `False`; a loader exception on any file → caught by the
batch-level `except` → `False`, nothing stored; otherwise, if at least
one page was extracted, `_process_and_store_documents` runs and the
function returns `True` unconditionally. -/
def load_pdf_guidelines (splitter : List Doc → List Doc) (eng : RAGEngine)
    (store : Option (List Doc)) (files : List PdfFile) :
    Option (List Doc) × Bool :=
  if files.isEmpty then (store, false)
  else
    match collectDocs files with
    | .error _ => (store, false)
    | .ok all_documents =>
      if all_documents.isEmpty then (store, false)
      else (process_and_store_documents splitter eng store all_documents, true)

/-- Availability of the external backends at engine construction:
`embeddingsAvailable` models `langchain_ollama` importing and
`OllamaEmbeddings(...)` constructing without raising (lines 46-60);
`chromaAvailable` the same for `langchain_chroma.Chroma` (lines 62-86);
`splitter` is the external `RecursiveCharacterTextSplitter` behaviour. -/
structure Env where
  embeddingsAvailable : Bool
  chromaAvailable : Bool
  splitter : List Doc → List Doc

/-- `RAGEngine._vector_store_exists` (lines 40-44): the persist directory
exists and `os.scandir` finds an entry.  `store = some l` models a
directory holding a Chroma collection with entry list `l` (Chroma always
materialises files, so such a directory is non-empty); `none` models an
absent or empty directory. -/
def vector_store_exists (store : Option (List Doc)) : Bool := store.isSome

/-- Result of `RAGEngine.__init__`: the engine, the persisted store after
construction, and whether ingestion (`load_pdf_guidelines`, the only path
that reads source documents) ran. -/
structure InitOut where
  engine : RAGEngine
  store : Option (List Doc)
  ranIngestion : Bool

/-- `RAGEngine.__init__` (lines 17-38) acting on the on-disk store.
`_initialize_embeddings` always runs first; every branch then calls
`_initialize_vector_store`, which is skipped (handle stays `None`) when
embeddings are unavailable and otherwise constructs `Chroma(...)` —
attaching to existing persisted data or creating an empty collection.
The branch decision: forced reload → full ingestion; else persisted store
directory exists and is non-empty → only `_check_vector_store_status`
(lines 88-100, a pure read of `count()`); else → full ingestion. -/
def RAGEngine.init (env : Env) (store0 : Option (List Doc))
    (files : List PdfFile) (load_documents : Bool) : InitOut :=
  let emb := env.embeddingsAvailable
  let attach := emb && env.chromaAvailable
  let store1 := if attach then some (store0.getD []) else store0
  let eng : RAGEngine := ⟨emb, attach⟩
  let s2r : Option (List Doc) × Bool :=
    if load_documents then
      ((load_pdf_guidelines env.splitter eng store1 files).1, true)
    else if vector_store_exists store0 then
      (store1, false)
    else
      ((load_pdf_guidelines env.splitter eng store1 files).1, true)
  ⟨eng, s2r.1, s2r.2⟩

/-- Modelled from the spec: the similarity-search invocation inside
`retrieve_context` is truncated out of the source (between lines 201 and
202; spec §9 records this and fixes the intent as "call embedding
provider on query, then k-nearest-neighbor search against the index",
returning up to `k` highest-similarity chunks, §4.1).  `score` is the
similarity of each stored entry to the query in the external embedding
space; the search returns the stored entries ranked by non-increasing
score, truncated to `k`. -/
def similaritySearch (score : Doc → Int) (store : List Doc) (k : Nat) :
    List Doc :=
  (store.insertionSort (fun a b => score b ≤ score a)).take k

/-- `RAGEngine._get_default_guidance` (lines 217-218; the `return` is
partially truncated in the source but its string literal remains). -/
def get_default_guidance (query : String) : String :=
  "Please refer to standard medical guidelines."

/-- One citation block of the serialized context (lines 206-209). -/
def formatHit (d : Doc) : String :=
  "[Source: " ++ d.source.getD "Unknown" ++ " | Tag: " ++
    d.category.getD "General" ++ "]\n" ++ d.page_content

/-- `RAGEngine.retrieve_context` (lines 190-215): fallback when the store
handle is `None`; otherwise similarity search (modelled, see
`similaritySearch`), fallback on zero hits, else the blank-line-separated
citation blocks together with the raw hit list.  The batch `except`
(lines 213-215) also resolves to the fallback; in this embedding the
store and scores are values, so no search step raises. -/
def retrieve_context (eng : RAGEngine) (entries : List Doc)
    (score : String → Doc → Int) (query : String) (max_results : Nat) :
    String × List Doc :=
  if eng.storeAttached = false then (get_default_guidance query, [])
  else
    let retrieved_docs := similaritySearch (score query) entries max_results
    if retrieved_docs.isEmpty then (get_default_guidance query, [])
    else (String.intercalate "\n\n" (retrieved_docs.map formatHit),
          retrieved_docs)

/-- `self.vector_store._collection.count()` (line 95): the number of
persisted entries; 0 when no store exists. -/
def countStore (store : Option (List Doc)) : Nat := (store.getD []).length

/-- The module-global `_rag_instance` (line 223) plus the on-disk state,
with a fresh-instance counter making object identity observable:
`inst = some (i, eng)` says the global holds the `i`-th `RAGEngine`
object constructed in this process. -/
structure ProcState where
  inst : Option (Nat × RAGEngine)
  nextId : Nat
  store : Option (List Doc)
  files : List PdfFile

/-- `get_rag_engine` (lines 225-237) as written in the source: when an
instance already exists and a reload is requested, it re-ingests on that
existing instance; then — there is no early return — it ALWAYS constructs
a fresh `RAGEngine`, rebinds the global to it and returns it.  The
returned `Nat` is the identity of the returned instance. -/
def get_rag_engine (env : Env) (st : ProcState) (load_documents : Bool) :
    ProcState × Nat :=
  let st1 :=
    match st.inst with
    | some (_, eng) =>
      if load_documents then
        { st with
            store := (load_pdf_guidelines env.splitter eng st.store st.files).1 }
      else st
    | none => st
  let out := RAGEngine.init env st1.store st1.files load_documents
  (⟨some (st1.nextId, out.engine), st1.nextId + 1, out.store, st1.files⟩,
   st1.nextId)

/-- A concrete similarity function used to instantiate theorems on
concrete inputs: the length of the entry's text, independent of the
query. -/
def lenScore : String → Doc → Int := fun _ d => (d.page_content.length : Int)

/-- A JSON-ish value of a patient's `specific_metrics` dictionary
(written by `add_patient` via `json.dumps`,
src/modules/database.py line 73). -/
inductive MVal where
  | s (v : String)
  | n (v : Int)
  | b (v : Bool)
  | arr (v : List String)
  | null
deriving Repr, DecidableEq

/-- Python `str()` of a metric value as an f-string renders it. -/
def pyStr : MVal → String
  | .s v => v
  | .n v => toString v
  | .b true => "True"
  | .b false => "False"
  | .arr l =>
      "[" ++ String.intercalate ", " (l.map (fun x => "\x27" ++ x ++ "\x27")) ++ "]"
  | .null => "None"

/-- Python truthiness of a metric value. -/
def pyTruthy : MVal → Bool
  | .s v => !(v == "")
  | .n v => !(v == 0)
  | .b v => v
  | .arr l => !l.isEmpty
  | .null => false

/-- Python `dict.get(k)` over an association list (`None` when absent). -/
def dictGet (m : List (String × MVal)) (k : String) : MVal :=
  match m.find? (fun p => p.1 == k) with
  | some p => p.2
  | none => .null

/-- Python `dict.get(k, default)`. -/
def dictGetD (m : List (String × MVal)) (k : String) (d : MVal) : MVal :=
  match m.find? (fun p => p.1 == k) with
  | some p => p.2
  | none => d

/-- Python `sep.join(x)`: succeeds on a list of strings and on a string
(joining its characters); any other operand raises `TypeError`. -/
def pyJoin (sep : String) : MVal → Except String String
  | .arr l => .ok (String.intercalate sep l)
  | .s v => .ok (String.intercalate sep (v.data.map Char.toString))
  | _ => .error "TypeError: can only join an iterable of strings"

/-- A row of the `patients` table (src/modules/database.py lines 22-36).
`specific_metrics` holds the outcome of `json.loads` on the stored TEXT
column: `none` models a value whose parse raises
(`JSONDecodeError`/`TypeError`, caught at lines 141-144 and degraded to
an empty dict).  REAL-typed columns are abstracted to `Int`; their
numeric rendering plays no role in the claims. -/
structure PatientRow where
  name : String
  age : Int
  gender : String
  weight_kg : Int
  height_cm : Int
  activity_level : String
  condition : String
  specific_metrics : Option (List (String × MVal))
  health_goal : String
deriving Repr, DecidableEq

/-- `get_patient` (lines 93-109): `SELECT * FROM patients WHERE name = ?`
then `fetchone()` — the first row whose name matches. -/
def get_patient (db : List PatientRow) (name : String) : Option PatientRow :=
  db.find? (fun p => p.name == name)

/-- `_format_clinical_summary` (lines 162-184).  Python builds the whole
`summaries` dictionary eagerly, so the `", ".join(...)` of the
`"Anaemia"` entry runs on every call, whatever `condition` is; its
`TypeError` on a non-iterable `symptoms` value escapes — `database.py`
has no handler for it. -/
def summaryText (condition : String) (metrics : List (String × MVal))
    (symptomsStr : String) : String :=
  let summaries : List (String × String) :=
    [("Type 2 Diabetes",
      "HbA1c: " ++ pyStr (dictGet metrics "hba1c") ++ "% | Medication: " ++
        pyStr (dictGet metrics "medication")),
     ("Hypertension",
      "BP: " ++ pyStr (dictGet metrics "bp_systolic") ++ "/" ++
        pyStr (dictGet metrics "bp_diastolic") ++ " mmHg"),
     ("Anaemia",
      "Hemoglobin: " ++ pyStr (dictGet metrics "hemoglobin") ++
        " g/dL | Symptoms: " ++ symptomsStr),
     ("PCOS",
      "Cycle: " ++ pyStr (dictGet metrics "periods") ++ " | Weight Gain: " ++
        (if pyTruthy (dictGet metrics "weight_gain") then "Yes" else "No")),
     ("Obesity",
      "BMI: " ++ pyStr (dictGet metrics "bmi") ++ " | Target: " ++
        pyStr (dictGet metrics "target_weight") ++ "kg")]
  match summaries.find? (fun p => p.1 == condition) with
  | some p => p.2
  | none =>
      if metrics.isEmpty then "No specific metrics"
      else String.intercalate ", "
        (metrics.map (fun p => p.1 ++ ": " ++ pyStr p.2))

/-- Continuation of `_format_clinical_summary`: the join of the symptoms
entry is evaluated first (eagerly, as part of building the dictionary);
if it raises, the error propagates, otherwise the summary string is
selected by `summaryText`. -/
def format_clinical_summary (condition : String)
    (metrics : List (String × MVal)) : Except String String :=
  match pyJoin ", " (dictGetD metrics "symptoms" (.arr [])) with
  | .error e => .error e
  | .ok symptomsStr => .ok (summaryText condition metrics symptomsStr)

/-- The fully assembled known-patient context (lines 149-157). -/
def patientContextText (patient : PatientRow) (clinical_summary : String) :
    String :=
  "PATIENT CONTEXT:\n- Name: " ++ patient.name ++
    "\n- Demographics: " ++ toString patient.age ++ " years old, " ++
    patient.gender ++ "\n- Body: " ++ toString patient.weight_kg ++
    "kg, " ++ toString patient.height_cm ++ "cm (Activity: " ++
    patient.activity_level ++ ")\n\nCLINICAL PROFILE:\n- Condition: " ++
    patient.condition ++ "\n- Clinical Markers: " ++ clinical_summary ++
    "\n- Goal: " ++ patient.health_goal

/-- The generic fallback context for an unknown patient (line 139). -/
def generalPublicContext : String :=
  "PATIENT CONTEXT: General Public (No specific medical history)"

/-- `get_patient_context_string` (lines 126-159): unknown patient → the
generic fallback; otherwise a metrics-JSON parse failure degrades to an
empty dict and the clinical context is assembled.  An exception from
`_format_clinical_summary` propagates — nothing in the function catches
it. -/
def get_patient_context_string (db : List PatientRow) (name : String) :
    Except String String :=
  match get_patient db name with
  | none => .ok generalPublicContext
  | some patient =>
    let metrics := patient.specific_metrics.getD []
    match format_clinical_summary patient.condition metrics with
    | .error e => .error e
    | .ok clinical_summary => .ok (patientContextText patient clinical_summary)

/-- The observable behaviour of the external `ChatOllama.stream(prompt)`
iterator for one call: it yields `chunks` and then either completes
normally (`ok`) or raises (`raisesAfter`). -/
inductive StreamBehavior where
  | ok (chunks : List String)
  | raisesAfter (chunks : List String)
deriving Repr, DecidableEq

/-- `MedGemmaModel._fallback_response` (src/modules/medgemma_model.py
lines 200-207): a constant string, whatever the arguments. -/
def fallback_response (patient_data query : String)
    (context : Option String) : String :=
  "⚠️ AI Model Unavailable. Please ensure Ollama is running (`ollama serve`)."

/-- `MedGemmaModel.stream_nutrition_advice` (lines 175-198) as the list
of fragments the generator yields.  Model not ready (`llm is None`) →
the single fallback and return; otherwise the external stream's chunks
are forwarded one by one, and an exception raised by the stream is
caught by the generator's `except`, which yields the fallback as the
final fragment and terminates.  `ready` models `self.is_ready()`,
`behavior` the external stream's behaviour for this call; no exception
can reach the consumer in either case. -/
def stream_nutrition_advice (ready : Bool) (behavior : StreamBehavior)
    (patient_data query : String) (context : Option String) :
    List String :=
  if ready = false then [fallback_response patient_data query context]
  else
    match behavior with
    | .ok chunks => chunks
    | .raisesAfter chunks =>
        chunks ++ [fallback_response patient_data query context]

/-- C5 counterexample: the claim's tie-break order puts `pregnancy` before
`dietary_guidelines`/`icmr`, but the source tests `icmr` first, so on
`"icmr_pregnancy.pdf"` the code returns `"general"` while the claim's
order yields `"pregnancy"`. -/
theorem categorize_order_counterexample :
    getCategoryFromFilename "icmr_pregnancy.pdf" = "general" ∧
      categorizeClaimOrder "icmr_pregnancy.pdf" = "pregnancy" := by
  exact ⟨rfl, rfl⟩

/-- C5 (amended): `categorize` is pure and total — for every input string it
returns exactly one of the seven categories — and is first-match keyword
matching on the lowercased filename in the order: diabetes;
hypertension|blood_pressure; anemia|iron; pcos; obesity|esi;
dietary_guidelines|icmr (→ general); pregnancy; anything else → general. -/
theorem categorize_total_first_match (s : String) :
    getCategoryFromFilename s ∈ categoryValues ∧
      getCategoryFromFilename s = firstRuleMatch (pyLower s) keywordRules := by
  constructor
  · simp only [getCategoryFromFilename, categoryValues]
    split_ifs <;> simp
  · simp only [getCategoryFromFilename, keywordRules, firstRuleMatch,
      List.any_cons, List.any_nil, Bool.or_false]

/-- Helper: the similarity search never returns more than `k` hits. -/
theorem similaritySearch_length (score : Doc → Int) (store : List Doc)
    (k : Nat) : (similaritySearch score store k).length ≤ k := by
  simp [similaritySearch, List.length_take]

/-- Helper: the similarity search output is ordered by non-increasing
score. -/
theorem similaritySearch_sorted (score : Doc → Int) (store : List Doc)
    (k : Nat) :
    (similaritySearch score store k).Pairwise
      (fun a b => score b ≤ score a) := by
  have hs : (store.insertionSort (fun a b => score b ≤ score a)).Pairwise
      (fun a b => score b ≤ score a) := by
    haveI : IsTotal Doc (fun a b => score b ≤ score a) :=
      ⟨fun a b => le_total (score b) (score a)⟩
    haveI : IsTrans Doc (fun a b => score b ≤ score a) :=
      ⟨fun a b c h1 h2 => le_trans h2 h1⟩
    exact List.sorted_insertionSort _ store
  exact hs.sublist (List.take_sublist _ _)

/-- Helper: the hit list of `retrieve_context` is either empty or exactly
the similarity-search output. -/
theorem retrieve_context_hits (eng : RAGEngine) (entries : List Doc)
    (score : String → Doc → Int) (query : String) (k : Nat) :
    (retrieve_context eng entries score query k).2 = [] ∨
      (retrieve_context eng entries score query k).2 =
        similaritySearch (score query) entries k := by
  simp only [retrieve_context]
  split
  · exact Or.inl rfl
  · split
    · exact Or.inl rfl
    · exact Or.inr rfl

/-- Helper: if some file's loader raises, the per-file loop raises. -/
theorem collectDocs_error_of_mem_error (files : List PdfFile)
    (h : ∃ f ∈ files, ∃ e, f.load = Except.error e) :
    ∃ e, collectDocs files = Except.error e := by
  induction files with
  | nil => simp at h
  | cons f fs ih =>
    obtain ⟨g, hg, e, he⟩ := h
    rcases List.mem_cons.mp hg with rfl | hmem
    · exact ⟨e, by simp [collectDocs, he]⟩
    · match hl : f.load with
      | .error e' => exact ⟨e', by simp [collectDocs, hl]⟩
      | .ok pages =>
        obtain ⟨e2, he2⟩ := ih ⟨g, hmem, e, he⟩
        exact ⟨e2, by simp [collectDocs, hl, he2, Except.map]⟩

/-- Helper: ingestion never turns an attached (`some`) persisted store
into an absent one. -/
theorem load_pdf_guidelines_isSome (splitter : List Doc → List Doc)
    (eng : RAGEngine) (store : Option (List Doc)) (files : List PdfFile)
    (h : store.isSome = true) :
    (load_pdf_guidelines splitter eng store files).1.isSome = true := by
  simp only [load_pdf_guidelines, process_and_store_documents]
  split
  · exact h
  · split
    · exact h
    · split
      · exact h
      · split
        · rfl
        · exact h

/-- Helper: the construction decision of `__init__` — ingestion runs iff
the forced-reload flag is set or no non-empty persisted store directory
exists. -/
theorem init_ran_eq (env : Env) (store0 : Option (List Doc))
    (files : List PdfFile) (flag : Bool) :
    (RAGEngine.init env store0 files flag).ranIngestion
      = (flag || !vector_store_exists store0) := by
  simp only [RAGEngine.init]
  cases flag with
  | true => simp
  | false =>
    by_cases h : vector_store_exists store0 = true
    · simp [h]
    · simp [Bool.eq_false_iff.mpr h, h]

/-- Helper: on the attach path (no forced reload, persisted store
present, both backends initialise) the engine attaches to the persisted
entries unchanged. -/
theorem init_attach (env : Env) (store0 : Option (List Doc))
    (files : List PdfFile) (hex : vector_store_exists store0 = true)
    (he : env.embeddingsAvailable = true)
    (hc : env.chromaAvailable = true) :
    (RAGEngine.init env store0 files false).store = store0 ∧
      (RAGEngine.init env store0 files false).engine.storeAttached
        = true := by
  cases store0 with
  | none => simp [vector_store_exists] at hex
  | some l => simp [RAGEngine.init, he, hc, vector_store_exists]

/-- Helper: when both backends initialise, construction always leaves an
attached (`some`) persisted store. -/
theorem init_store_isSome (env : Env) (store0 : Option (List Doc))
    (files : List PdfFile) (flag : Bool)
    (he : env.embeddingsAvailable = true)
    (hc : env.chromaAvailable = true) :
    (RAGEngine.init env store0 files flag).store.isSome = true := by
  simp only [RAGEngine.init, he, hc, Bool.and_self]
  split
  · exact load_pdf_guidelines_isSome _ _ _ _ rfl
  · split
    · rfl
    · exact load_pdf_guidelines_isSome _ _ _ _ rfl

/-- C1: if the vector index is unavailable — embeddings unavailable makes
`_initialize_vector_store` skip, leaving the handle `None`, and a `None`
handle short-circuits `retrieve_context` — or the similarity search
yields zero hits, then `retrieve_context` returns the fixed fallback
guidance string and an empty hit list, for every query string (the empty
string included) and every `k`; the embedding is a total function, so no
error is raised on any of these paths. -/
theorem retrieve_context_degraded (env : Env) (store0 : Option (List Doc))
    (files : List PdfFile) (flag : Bool) (eng : RAGEngine)
    (entries : List Doc) (score : String → Doc → Int) (query : String)
    (k : Nat) :
    (env.embeddingsAvailable = false →
      (RAGEngine.init env store0 files flag).engine.storeAttached
        = false) ∧
    (eng.storeAttached = false →
      retrieve_context eng entries score query k
        = (get_default_guidance query, [])) ∧
    (similaritySearch (score query) entries k = [] →
      retrieve_context eng entries score query k
        = (get_default_guidance query, [])) := by
  refine ⟨?_, ?_, ?_⟩
  · intro h
    simp [RAGEngine.init, h]
  · intro h
    simp [retrieve_context, h]
  · intro h
    by_cases hs : eng.storeAttached = false
    · simp [retrieve_context, hs]
    · simp [retrieve_context, hs, h]

/-- C1 witness: a degraded engine (embeddings unavailable, hence no store
handle) answers the empty query with the fallback and no hits, and
construction under unavailable embeddings indeed leaves no store
handle. -/
theorem retrieve_context_degraded_witness :
    retrieve_context ⟨false, false⟩ [] lenScore "" 4
        = (get_default_guidance "", []) ∧
      (RAGEngine.init ⟨false, true, fun ds => ds⟩ none [] false).engine.storeAttached
        = false :=
  ⟨(retrieve_context_degraded ⟨false, true, fun ds => ds⟩ none [] false
      ⟨false, false⟩ [] lenScore "" 4).2.1 rfl,
   (retrieve_context_degraded ⟨false, true, fun ds => ds⟩ none [] false
      ⟨false, false⟩ [] lenScore "" 4).1 rfl⟩

/-- C2: for every query and every `k ≥ 1`, `retrieve_context` returns at
most `k` hits, ordered by non-increasing similarity score. -/
theorem retrieve_context_ranked (eng : RAGEngine) (entries : List Doc)
    (score : String → Doc → Int) (query : String) (k : Nat)
    (hk : 1 ≤ k) :
    (retrieve_context eng entries score query k).2.length ≤ k ∧
      (retrieve_context eng entries score query k).2.Pairwise
        (fun a b => score query b ≤ score query a) := by
  rcases retrieve_context_hits eng entries score query k with h | h <;> rw [h]
  · simp
  · exact ⟨similaritySearch_length _ _ _, similaritySearch_sorted _ _ _⟩

/-- C2 witness: a two-entry store queried with `k = 2`. -/
theorem retrieve_context_ranked_witness :
    1 ≤ 2 ∧
      ((retrieve_context ⟨true, true⟩
          [⟨"aa", some "a.pdf", some "general"⟩,
           ⟨"b", some "b.pdf", some "diabetes"⟩]
          lenScore "query" 2).2.length ≤ 2 ∧
        (retrieve_context ⟨true, true⟩
          [⟨"aa", some "a.pdf", some "general"⟩,
           ⟨"b", some "b.pdf", some "diabetes"⟩]
          lenScore "query" 2).2.Pairwise
            (fun a b => lenScore "query" b ≤ lenScore "query" a)) :=
  ⟨by norm_num,
   retrieve_context_ranked ⟨true, true⟩
     [⟨"aa", some "a.pdf", some "general"⟩,
      ⟨"b", some "b.pdf", some "diabetes"⟩]
     lenScore "query" 2 (by norm_num)⟩

/-- C3 counterexample: with the vector store unavailable (embeddings
failed to initialise, so the store handle is `None` and no persisted
directory exists), ingesting one readable PDF returns `True` while zero
chunks are stored — `load_pdf_guidelines` returns `True` whenever page
content was extracted, and `_process_and_store_documents` silently drops
the chunks. -/
theorem ingest_true_without_store :
    load_pdf_guidelines (fun ds => ds) ⟨false, false⟩ none
        [⟨"diabetes_guide.pdf", .ok ["Eat well."]⟩] = (none, true) ∧
      countStore (load_pdf_guidelines (fun ds => ds) ⟨false, false⟩ none
        [⟨"diabetes_guide.pdf", .ok ["Eat well."]⟩]).1 = 0 :=
  ⟨rfl, rfl⟩

/-- C3 (amended): `load_pdf_guidelines` returns `false` when the file
list is empty, without raising and leaving the store untouched;
otherwise it returns `true` iff every file loaded without raising and at
least one page was extracted — independently of whether any chunk was
stored (storing silently no-ops when the vector store handle is
`None`). -/
theorem ingest_result (splitter : List Doc → List Doc) (eng : RAGEngine)
    (store : Option (List Doc)) (files : List PdfFile) :
    (files = [] →
      load_pdf_guidelines splitter eng store files = (store, false)) ∧
    ((load_pdf_guidelines splitter eng store files).2 = true ↔
      files ≠ [] ∧ ∃ ds, collectDocs files = .ok ds ∧ ds ≠ []) := by
  constructor
  · intro h; subst h; rfl
  · cases files with
    | nil => simp [load_pdf_guidelines]
    | cons f fs =>
      simp only [load_pdf_guidelines, List.isEmpty_cons, Bool.false_eq_true,
        if_false, ne_eq, reduceCtorEq, not_false_eq_true, true_and]
      match hc : collectDocs (f :: fs) with
      | .error e => simp
      | .ok ds =>
        cases ds with
        | nil => simp
        | cons d ds => simp

/-- C3 witness: one readable file with one page against an attached store
makes the iff's right side true, so ingestion reports `true`. -/
theorem ingest_result_witness :
    (load_pdf_guidelines (fun ds => ds) ⟨true, true⟩ (some [])
        [⟨"anemia_iron.pdf", .ok ["Iron rich foods."]⟩]).2 = true :=
  ((ingest_result (fun ds => ds) ⟨true, true⟩ (some [])
      [⟨"anemia_iron.pdf", .ok ["Iron rich foods."]⟩]).2).mpr
    ⟨by simp, _, rfl, by simp⟩

/-- C4 counterexample: a read error on the first file aborts the whole
batch — with the same store, the two-file batch whose first file is
unreadable returns `false` and stores nothing, while the second file
alone would have stored a chunk and returned `true`. -/
theorem file_error_aborts_batch :
    load_pdf_guidelines (fun ds => ds) ⟨true, true⟩ (some [])
        [⟨"bad.pdf", .error "unreadable"⟩,
         ⟨"diabetes_guide.pdf", .ok ["Eat well."]⟩]
      = (some [], false) ∧
    load_pdf_guidelines (fun ds => ds) ⟨true, true⟩ (some [])
        [⟨"diabetes_guide.pdf", .ok ["Eat well."]⟩]
      = (some [⟨"Eat well.", some "diabetes_guide.pdf", some "diabetes"⟩],
         true) :=
  ⟨rfl, rfl⟩

/-- C4 (amended): a document-reading error on ANY file of the batch
aborts the entire ingestion: the exception is caught only by the
batch-level handler, which returns `false` with the store unchanged —
no chunk from any file of the batch is stored in that call. -/
theorem ingest_aborts_on_file_error (splitter : List Doc → List Doc)
    (eng : RAGEngine) (store : Option (List Doc)) (files : List PdfFile)
    (h : ∃ f ∈ files, ∃ e, f.load = Except.error e) :
    load_pdf_guidelines splitter eng store files = (store, false) := by
  obtain ⟨e, he⟩ := collectDocs_error_of_mem_error files h
  have hne : files ≠ [] := by
    rintro rfl; simp [collectDocs] at he
  unfold load_pdf_guidelines
  rw [if_neg (by simp [hne]), he]

/-- C4 witness: a single unreadable file leaves the store unchanged and
returns `false`. -/
theorem ingest_aborts_witness :
    load_pdf_guidelines (fun ds => ds) ⟨true, true⟩ (some [])
        [⟨"x.pdf", .error "boom"⟩] = (some [], false) :=
  ingest_aborts_on_file_error (fun ds => ds) ⟨true, true⟩ (some [])
    [⟨"x.pdf", .error "boom"⟩]
    ⟨⟨"x.pdf", .error "boom"⟩, List.mem_singleton_self _, "boom", rfl⟩

/-- C6: engine construction follows the three-path decision on
(forced-reload flag, persisted store directory exists and is non-empty):
ingestion — the only path that reads source documents — runs iff the
flag is set or no non-empty persisted store exists, and on the attach
path (flag clear, persisted store present, embedding and store backends
initialise) the engine attaches to the existing persisted entries
without ingesting and without changing them. -/
theorem init_three_paths (env : Env) (store0 : Option (List Doc))
    (files : List PdfFile) (flag : Bool) :
    ((RAGEngine.init env store0 files flag).ranIngestion
        = (flag || !vector_store_exists store0)) ∧
    (flag = false → vector_store_exists store0 = true →
      env.embeddingsAvailable = true → env.chromaAvailable = true →
      (RAGEngine.init env store0 files flag).store = store0 ∧
        (RAGEngine.init env store0 files flag).engine.storeAttached
          = true) := by
  refine ⟨init_ran_eq env store0 files flag, ?_⟩
  rintro rfl hex he hc
  exact init_attach env store0 files hex he hc

/-- C6 witness: attaching to a one-entry persisted store without the
flag keeps the entry and runs no ingestion. -/
theorem init_three_paths_witness :
    ((RAGEngine.init ⟨true, true, fun ds => ds⟩
        (some [⟨"t", some "s.pdf", some "general"⟩]) [] false).ranIngestion
      = (false || !vector_store_exists
          (some [⟨"t", some "s.pdf", some "general"⟩]))) ∧
    ((RAGEngine.init ⟨true, true, fun ds => ds⟩
        (some [⟨"t", some "s.pdf", some "general"⟩]) [] false).store
      = some [⟨"t", some "s.pdf", some "general"⟩]) :=
  ⟨(init_three_paths ⟨true, true, fun ds => ds⟩
      (some [⟨"t", some "s.pdf", some "general"⟩]) [] false).1,
   ((init_three_paths ⟨true, true, fun ds => ds⟩
      (some [⟨"t", some "s.pdf", some "general"⟩]) [] false).2
      rfl rfl rfl rfl).1⟩

/-- C7: whatever a first construction persisted, a second engine
construction against that persisted store without the forced-reload flag
(both backends available) performs no ingestion and leaves the stored
entries unchanged — the count observed after the second startup equals
the count at the end of the prior session. -/
theorem second_startup_preserves_count (env : Env)
    (store0 : Option (List Doc)) (files1 files2 : List PdfFile)
    (flag1 : Bool) (he : env.embeddingsAvailable = true)
    (hc : env.chromaAvailable = true) :
    (RAGEngine.init env (RAGEngine.init env store0 files1 flag1).store
        files2 false).store
      = (RAGEngine.init env store0 files1 flag1).store ∧
    countStore (RAGEngine.init env
        (RAGEngine.init env store0 files1 flag1).store files2 false).store
      = countStore (RAGEngine.init env store0 files1 flag1).store ∧
    (RAGEngine.init env (RAGEngine.init env store0 files1 flag1).store
        files2 false).ranIngestion = false := by
  have hs : vector_store_exists
      (RAGEngine.init env store0 files1 flag1).store = true :=
    init_store_isSome env store0 files1 flag1 he hc
  obtain ⟨h1, _⟩ :=
    init_attach env (RAGEngine.init env store0 files1 flag1).store files2
      hs he hc
  refine ⟨h1, by rw [h1], ?_⟩
  rw [init_ran_eq, hs]
  rfl

/-- C7 witness: ingest one file in a first session, reopen without the
flag: the count is preserved and no ingestion runs. -/
theorem second_startup_preserves_count_witness :
    (RAGEngine.init ⟨true, true, fun ds => ds⟩
        (RAGEngine.init ⟨true, true, fun ds => ds⟩ none
          [⟨"diabetes.pdf", .ok ["Sugar."]⟩] true).store [] false).store
      = (RAGEngine.init ⟨true, true, fun ds => ds⟩ none
          [⟨"diabetes.pdf", .ok ["Sugar."]⟩] true).store ∧
    countStore (RAGEngine.init ⟨true, true, fun ds => ds⟩
        (RAGEngine.init ⟨true, true, fun ds => ds⟩ none
          [⟨"diabetes.pdf", .ok ["Sugar."]⟩] true).store [] false).store
      = countStore (RAGEngine.init ⟨true, true, fun ds => ds⟩ none
          [⟨"diabetes.pdf", .ok ["Sugar."]⟩] true).store ∧
    (RAGEngine.init ⟨true, true, fun ds => ds⟩
        (RAGEngine.init ⟨true, true, fun ds => ds⟩ none
          [⟨"diabetes.pdf", .ok ["Sugar."]⟩] true).store [] false).ranIngestion
      = false :=
  second_startup_preserves_count ⟨true, true, fun ds => ds⟩ none
    [⟨"diabetes.pdf", .ok ["Sugar."]⟩] [] true rfl rfl

/-- C8 evidence: two successive `get_rag_engine(load_documents=False)`
calls in a fresh process return DIFFERENT instances — the source rebinds
the module global to a newly constructed `RAGEngine` on every call (the
early return for the existing-instance case is absent), contradicting
its own docstring ("Get or create RAGEngine instance (singleton
pattern)"). -/
theorem get_rag_engine_not_singleton :
    (get_rag_engine ⟨true, true, fun ds => ds⟩ ⟨none, 0, none, []⟩
        false).2 = 0 ∧
    (get_rag_engine ⟨true, true, fun ds => ds⟩
        (get_rag_engine ⟨true, true, fun ds => ds⟩ ⟨none, 0, none, []⟩
          false).1 false).2 = 1 ∧
    (0 : Nat) ≠ 1 :=
  ⟨rfl, rfl, by decide⟩

/-- C9 counterexample: a stored patient whose `specific_metrics` JSON
holds a non-iterable `symptoms` value (here the number 5, storable via
`add_patient`) makes `get_patient_context_string` raise `TypeError` —
the `summaries` dictionary of `_format_clinical_summary` is built
eagerly, so `", ".join(metrics.get("symptoms", []))` runs whatever the
condition is, and nothing catches its error. -/
theorem patient_context_raises :
    get_patient_context_string
        [⟨"Asha", 30, "Female", 62, 158, "Moderate", "Type 2 Diabetes",
          some [("symptoms", .n 5)], "Better Health"⟩] "Asha"
      = .error "TypeError: can only join an iterable of strings" :=
  rfl

/-- C9 (amended): `get_patient_context_string` returns the generic
fallback string, without failing, whenever the patient is unknown; for a
known patient it returns a string provided the stored `symptoms` metric,
if present, is a list or a string — a non-iterable `symptoms` value
raises `TypeError`. -/
theorem patient_context_total (db : List PatientRow) (name : String) :
    (get_patient db name = none →
      get_patient_context_string db name = .ok generalPublicContext) ∧
    (∀ p, get_patient db name = some p →
      (∀ v, dictGetD (p.specific_metrics.getD []) "symptoms" (.arr [])
          = v → (∃ l, v = .arr l) ∨ (∃ s, v = .s s)) →
      ∃ out, get_patient_context_string db name = .ok out) := by
  constructor
  · intro h
    simp [get_patient_context_string, h]
  · intro p hp hv
    have hjoin : ∃ r, pyJoin ", "
        (dictGetD (p.specific_metrics.getD []) "symptoms" (.arr []))
        = .ok r := by
      rcases hv _ rfl with ⟨l, hl⟩ | ⟨s, hs⟩
      · exact ⟨_, by rw [hl]; rfl⟩
      · exact ⟨_, by rw [hs]; rfl⟩
    obtain ⟨r, hr⟩ := hjoin
    have hfmt : format_clinical_summary p.condition
        (p.specific_metrics.getD [])
        = .ok (summaryText p.condition (p.specific_metrics.getD []) r) := by
      unfold format_clinical_summary
      rw [hr]
    refine ⟨patientContextText p
      (summaryText p.condition (p.specific_metrics.getD []) r), ?_⟩
    unfold get_patient_context_string
    rw [hp]
    simp only [hfmt]

/-- C9 witness: an unknown patient gets the generic fallback, and a
patient with a well-shaped symptoms list gets a context string. -/
theorem patient_context_total_witness :
    (get_patient_context_string [] "Nobody" = .ok generalPublicContext) ∧
    (∃ out, get_patient_context_string
        [⟨"Ravi", 45, "Male", 80, 172, "Low", "Anaemia",
          some [("hemoglobin", .n 9), ("symptoms", .arr ["fatigue"])],
          "Better Health"⟩] "Ravi" = .ok out) :=
  ⟨(patient_context_total [] "Nobody").1 rfl,
   (patient_context_total
      [⟨"Ravi", 45, "Male", 80, 172, "Low", "Anaemia",
        some [("hemoglobin", .n 9), ("symptoms", .arr ["fatigue"])],
        "Better Health"⟩] "Ravi").2 _ rfl
     (by intro v hv; exact Or.inl ⟨["fatigue"], hv.symm⟩)⟩

/-- C10 counterexample: with the model ready and the external stream
completing successfully after zero chunks, the generator yields no
fragment at all, refuting "yields at least one text fragment"; the other
clauses hold (see the amended theorem). -/
theorem stream_zero_fragments :
    stream_nutrition_advice true (.ok []) "patient" "query" none = [] :=
  rfl

/-- C10 (amended): `stream_nutrition_advice` never propagates an
exception — every behaviour of the external stream yields a plain
fragment list: model not ready → exactly the single fallback string;
stream raises internally → its chunks followed by the fallback as the
final fragment; stream succeeds → exactly its chunks, which may be zero
fragments. -/
theorem stream_nutrition_advice_cases (behavior : StreamBehavior)
    (patient_data query : String) (context : Option String) :
    (stream_nutrition_advice false behavior patient_data query context
      = [fallback_response patient_data query context]) ∧
    (∀ chunks, behavior = .raisesAfter chunks →
      stream_nutrition_advice true behavior patient_data query context
        = chunks ++ [fallback_response patient_data query context]) ∧
    (∀ chunks, behavior = .ok chunks →
      stream_nutrition_advice true behavior patient_data query context
        = chunks) := by
  refine ⟨rfl, ?_, ?_⟩
  · rintro chunks rfl; rfl
  · rintro chunks rfl; rfl

/-- C10 witness: a not-ready model yields the single fallback; a raising
stream appends the fallback after its chunks. -/
theorem stream_nutrition_advice_cases_witness :
    (stream_nutrition_advice false (.ok ["hi"]) "pd" "q" none
      = [fallback_response "pd" "q" none]) ∧
    (stream_nutrition_advice true (.raisesAfter ["partial"]) "pd" "q" none
      = ["partial"] ++ [fallback_response "pd" "q" none]) :=
  ⟨(stream_nutrition_advice_cases (.ok ["hi"]) "pd" "q" none).1,
   (stream_nutrition_advice_cases (.raisesAfter ["partial"]) "pd" "q"
      none).2.1 ["partial"] rfl⟩
